import Mathlib

/-!
Shallow embedding of `src/SwiftRide.py`.

Modelling conventions:
- Python floats (`distance`, `fare`) are modelled as rationals (`ℚ`); the
  source performs only multiplication by the integer constants 5, 10, 3,
  so the arithmetic is exact.
- Python object identity for drivers is modelled by the driver's index in
  the `DriverManager` list; a `Ride.driver` field holds `Option Nat`, the
  index of its assigned driver.
- Python exceptions (`ValueError`) are modelled with `Except`; the error
  payload carries the exception message together with the state of the
  objects at the moment of the raise, since mutations performed before a
  `raise` persist in Python.
- `print` calls are modelled by returning the list of printed lines.
-/

/-- DriverStatus enum from the source (AVAILABLE / OCCUPIED). -/
inductive DriverStatus where
  | AVAILABLE
  | OCCUPIED
deriving DecidableEq, Repr

/-- The three concrete RideType subclasses (EconomyRide, LuxuryRide, PoolRide). -/
inductive RideTypeKind where
  | economy
  | luxury
  | pool
deriving DecidableEq, Repr

/-- EconomyRide.calculate_fare returns distance * 5, LuxuryRide distance * 10,
PoolRide distance * 3. -/
def RideTypeKind.calculate_fare (t : RideTypeKind) (distance : ℚ) : ℚ :=
  match t with
  | .economy => distance * 5
  | .luxury => distance * 10
  | .pool => distance * 3

/-- EconomyRide / LuxuryRide / PoolRide get_type_name. -/
def RideTypeKind.get_type_name (t : RideTypeKind) : String :=
  match t with
  | .economy => "Economy"
  | .luxury => "Luxury"
  | .pool => "Pool"

/-- Python str.lower(): character-wise lowercasing of the string. -/
def str_lower (s : String) : String :=
  String.mk (s.data.map Char.toLower)

/-- RideTypeFactory.create_ride_type: lowercases the input, looks it up in the
dict of the three categories, raises ValueError with the original input in the
message otherwise. -/
def RideTypeFactory.create_ride_type (ride_type : String) : Except String RideTypeKind :=
  let ride_type_lower := str_lower ride_type
  if ride_type_lower = "economy" then .ok .economy
  else if ride_type_lower = "luxury" then .ok .luxury
  else if ride_type_lower = "pool" then .ok .pool
  else .error ("Invalid ride type: " ++ ride_type)

/-- Ride record (class Ride). `customer_name` stands for the customer
reference; `driver` is the index of the assigned driver, `none` initially. -/
structure Ride where
  customer_name : String
  pickup_location : String
  dropoff_location : String
  distance : ℚ
  ride_type : RideTypeKind
  fare : ℚ
  driver : Option Nat
  is_confirmed : Bool
deriving DecidableEq, Repr

/-- Driver record (class Driver): name, status, current_ride. `current_ride`
holds the value of the ride passed to `assign_ride` (a snapshot of the
Python reference). -/
structure Driver where
  name : String
  status : DriverStatus
  current_ride : Option Ride
deriving DecidableEq, Repr

/-- Driver.__init__: status AVAILABLE, current_ride None. -/
def Driver.make (name : String) : Driver :=
  { name := name, status := .AVAILABLE, current_ride := none }

/-- Driver.is_available: status == AVAILABLE. -/
def Driver.is_available (d : Driver) : Bool :=
  match d.status with
  | .AVAILABLE => true
  | .OCCUPIED => false

/-- Driver.assign_ride: raises ValueError if not available (the error payload
carries the unmodified driver, since the raise happens before any mutation);
otherwise sets status OCCUPIED and stores the ride. -/
def Driver.assign_ride (d : Driver) (ride : Ride) : Except (String × Driver) Driver :=
  if d.is_available = false then
    .error ("Driver " ++ d.name ++ " is not available", d)
  else
    .ok { d with status := .OCCUPIED, current_ride := some ride }

/-- Driver.complete_ride: unconditionally resets status to AVAILABLE and
clears current_ride. -/
def Driver.complete_ride (d : Driver) : Driver :=
  { d with status := .AVAILABLE, current_ride := none }

/-- Customer record (class Customer). -/
structure Customer where
  name : String
  ride_history : List Ride
deriving DecidableEq, Repr

/-- Customer.__init__: empty ride history. -/
def Customer.make (name : String) : Customer :=
  { name := name, ride_history := [] }

/-- Ride.__init__: fare computed at construction, driver None,
is_confirmed False. -/
def Ride.make (customer : Customer) (pickup_location dropoff_location : String)
    (distance : ℚ) (ride_type : RideTypeKind) : Ride :=
  { customer_name := customer.name
    pickup_location := pickup_location
    dropoff_location := dropoff_location
    distance := distance
    ride_type := ride_type
    fare := ride_type.calculate_fare distance
    driver := none
    is_confirmed := false }

/-- Ride.assign_driver: sets self.driver = driver FIRST, then calls
driver.assign_ride(self), then sets is_confirmed = True. If assign_ride
raises, the exception propagates with `self.driver` already mutated and
`is_confirmed` still False; the error payload carries that partially
mutated ride. `driver_ix` is the index of `d` in the registry. -/
def Ride.assign_driver (r : Ride) (driver_ix : Nat) (d : Driver) :
    Except (String × Ride × Driver) (Ride × Driver) :=
  let r1 := { r with driver := some driver_ix }
  match d.assign_ride r1 with
  | .error (msg, d1) => .error (msg, r1, d1)
  | .ok d1 => .ok ({ r1 with is_confirmed := true }, d1)

/-- DriverManager.get_available_driver: scans the list in order and returns
the first driver whose is_available() is true, together with its index
(the index models Python object identity); None if there is none. -/
def DriverManager.get_available_driver : List Driver → Option (Nat × Driver)
  | [] => none
  | d :: ds =>
    if d.is_available then some (0, d)
    else
      match DriverManager.get_available_driver ds with
      | none => none
      | some (i, d2) => some (i + 1, d2)

/-- Result of RideBookingService.book_ride: the returned Optional[Ride],
the post-call driver list and customer (Python mutates them in place), and
the lines printed during the call. -/
structure BookResult where
  ride : Option Ride
  drivers : List Driver
  customer : Customer
  output : List String
deriving DecidableEq, Repr

/-- RideBookingService.book_ride: resolve the category (ValueError caught,
printed, None returned); build the ride; find an available driver; if found,
assign it (a ValueError raised there is caught by the same except block),
append the ride to the customer's history and return it; otherwise return
None with everything unchanged. -/
def RideBookingService.book_ride (drivers : List Driver) (customer : Customer)
    (pickup_location dropoff_location : String) (distance : ℚ)
    (ride_type_str : String) : BookResult :=
  match RideTypeFactory.create_ride_type ride_type_str with
  | .error msg =>
    { ride := none, drivers := drivers, customer := customer
      output := ["Error booking ride: " ++ msg] }
  | .ok ride_type =>
    let ride := Ride.make customer pickup_location dropoff_location distance ride_type
    match DriverManager.get_available_driver drivers with
    | some (i, available_driver) =>
      match ride.assign_driver i available_driver with
      | .ok (r1, d1) =>
        { ride := some r1
          drivers := drivers.set i d1
          customer := { customer with ride_history := customer.ride_history ++ [r1] }
          output := [] }
      | .error (msg, _, d1) =>
        { ride := none, drivers := drivers.set i d1, customer := customer
          output := ["Error booking ride: " ++ msg] }
    | none =>
      { ride := none, drivers := drivers, customer := customer, output := [] }

/-- Python `f"{x:.0f}"` on an exact rational value: round to the nearest
integer, ties to even, and print the integer. The comparison of the
fractional part `q - f` against `1/2` is done by cross-multiplication with
the (positive) denominator: `q - f < 1/2` iff `2*q.num - 2*f*q.den < q.den`. -/
def format_fare_0f (q : ℚ) : String :=
  let f : Int := Rat.floor q
  let num2 : Int := 2 * q.num - 2 * f * (q.den : Int)
  let r : Int :=
    if num2 < (q.den : Int) then f
    else if (q.den : Int) < num2 then f + 1
    else if f % 2 = 0 then f else f + 1
  toString r

/-- State held by a SwiftRideSystem instance: the DriverManager's driver
list and the customer list. -/
structure SystemState where
  drivers : List Driver
  customers : List Customer
deriving DecidableEq, Repr

/-- SwiftRideSystem.__init__. -/
def SwiftRideSystem.make : SystemState :=
  { drivers := [], customers := [] }

/-- SwiftRideSystem.add_driver: constructs the driver and appends it. -/
def SwiftRideSystem.add_driver (st : SystemState) (name : String) : SystemState :=
  { st with drivers := st.drivers ++ [Driver.make name] }

/-- SwiftRideSystem.add_customer: constructs the customer and appends it. -/
def SwiftRideSystem.add_customer (st : SystemState) (name : String) : SystemState :=
  { st with customers := st.customers ++ [Customer.make name] }

/-- SwiftRideSystem.book_ride: delegates to the service; prints the fare
line on success (ride.driver.name resolved through the registry) and the
fixed no-drivers line on absence. `ci` is the customer's index in the
customer list (Python passes the aliased customer object). -/
def SwiftRideSystem.book_ride (st : SystemState) (ci : Nat)
    (pickup dropoff : String) (distance : ℚ) (category : String) :
    SystemState × List String :=
  match st.customers.get? ci with
  | none => (st, [])
  | some customer =>
    let res := RideBookingService.book_ride st.drivers customer pickup dropoff
        distance category
    let st1 : SystemState :=
      { drivers := res.drivers, customers := st.customers.set ci res.customer }
    match res.ride with
    | some r =>
      let driver_name := ((r.driver.bind fun i => res.drivers.get? i).map Driver.name).getD ""
      (st1, res.output ++
        ["Ride Fare: $" ++ format_fare_0f r.fare ++ ", Driver: " ++ driver_name])
    | none =>
      (st1, res.output ++ ["No drivers available."])

/-- Calling complete_ride on the driver stored at index `i` of the system
state (the rest of the state is untouched; the Python method mutates only
the driver object). -/
def SystemState.complete_driver (st : SystemState) (i : Nat) : SystemState :=
  match st.drivers.get? i with
  | some d => { st with drivers := st.drivers.set i d.complete_ride }
  | none => st

/-- The bundled demo (`main`): drivers Alice then Bob, customers John,
Rebecca, Mike, then the three scripted bookings. -/
def demo_setup : SystemState :=
  SwiftRideSystem.add_customer
    (SwiftRideSystem.add_customer
      (SwiftRideSystem.add_customer
        (SwiftRideSystem.add_driver
          (SwiftRideSystem.add_driver SwiftRideSystem.make "Alice") "Bob")
        "John") "Rebecca") "Mike"

/-- Task 6 of the demo: John, Airport to Downtown, 15 miles, Economy. -/
def demo_b1 : SystemState × List String :=
  SwiftRideSystem.book_ride demo_setup 0 "Airport" "Downtown" 15 "Economy"

/-- Task 7 of the demo: Rebecca, College to Downtown, 10 miles, Luxury. -/
def demo_b2 : SystemState × List String :=
  SwiftRideSystem.book_ride demo_b1.1 1 "College" "Downtown" 10 "Luxury"

/-- Task 8 of the demo: Mike, Downtown to Shopping Mall, 5 miles, Pool. -/
def demo_b3 : SystemState × List String :=
  SwiftRideSystem.book_ride demo_b2.1 2 "Downtown" "Shopping Mall" 5 "Pool"

/-- Evaluation helper: category resolution of the demo's first booking. -/
lemma demo_create_economy :
    RideTypeFactory.create_ride_type "Economy" = Except.ok RideTypeKind.economy := by
  rfl

/-- Evaluation helper: category resolution of the demo's second booking. -/
lemma demo_create_luxury :
    RideTypeFactory.create_ride_type "Luxury" = Except.ok RideTypeKind.luxury := by
  rfl

/-- Evaluation helper: the ride constructed for the demo's first booking,
with its fare 15 * 5 normalised to the literal 75. -/
lemma demo_ride1_eq :
    Ride.make (Customer.make "John") "Airport" "Downtown" 15 RideTypeKind.economy =
      { customer_name := "John", pickup_location := "Airport"
        dropoff_location := "Downtown", distance := 15
        ride_type := RideTypeKind.economy, fare := 75
        driver := none, is_confirmed := false } := by
  simp only [Ride.make, Customer.make, RideTypeKind.calculate_fare, Ride.mk.injEq]
  norm_num

/-- Evaluation helper: the ride constructed for the demo's second booking,
with its fare 10 * 10 normalised to the literal 100. -/
lemma demo_ride2_eq :
    Ride.make (Customer.make "Rebecca") "College" "Downtown" 10 RideTypeKind.luxury =
      { customer_name := "Rebecca", pickup_location := "College"
        dropoff_location := "Downtown", distance := 10
        ride_type := RideTypeKind.luxury, fare := 100
        driver := none, is_confirmed := false } := by
  simp only [Ride.make, Customer.make, RideTypeKind.calculate_fare, Ride.mk.injEq]
  norm_num

/-- The ride stored in Alice's current_ride after the first demo booking
(the snapshot passed to assign_ride: driver set, not yet confirmed). -/
def demo_ride1_assigned : Ride :=
  { customer_name := "John", pickup_location := "Airport"
    dropoff_location := "Downtown", distance := 15
    ride_type := RideTypeKind.economy, fare := 75
    driver := some 0, is_confirmed := false }

/-- The ride stored in Bob's current_ride after the second demo booking. -/
def demo_ride2_assigned : Ride :=
  { customer_name := "Rebecca", pickup_location := "College"
    dropoff_location := "Downtown", distance := 10
    ride_type := RideTypeKind.luxury, fare := 100
    driver := some 1, is_confirmed := false }

/-- System state after the first demo booking. -/
def demo_state1 : SystemState :=
  { drivers := [{ name := "Alice", status := .OCCUPIED, current_ride := some demo_ride1_assigned },
                Driver.make "Bob"]
    customers := [{ name := "John", ride_history := [{ demo_ride1_assigned with is_confirmed := true }] },
                  Customer.make "Rebecca", Customer.make "Mike"] }

/-- System state after the second demo booking. -/
def demo_state2 : SystemState :=
  { drivers := [{ name := "Alice", status := .OCCUPIED, current_ride := some demo_ride1_assigned },
                { name := "Bob", status := .OCCUPIED, current_ride := some demo_ride2_assigned }]
    customers := [{ name := "John", ride_history := [{ demo_ride1_assigned with is_confirmed := true }] },
                  { name := "Rebecca", ride_history := [{ demo_ride2_assigned with is_confirmed := true }] },
                  Customer.make "Mike"] }

/-- Evaluation of the demo's first booking. -/
lemma demo_b1_eq : demo_b1 = (demo_state1, ["Ride Fare: $75, Driver: Alice"]) := by
  simp only [demo_b1, demo_setup, SwiftRideSystem.make, SwiftRideSystem.add_driver,
    SwiftRideSystem.add_customer, SwiftRideSystem.book_ride, List.nil_append,
    List.cons_append, List.append_nil, List.get?_cons_zero, List.get?_cons_succ,
    RideBookingService.book_ride, demo_create_economy, demo_ride1_eq,
    demo_state1, demo_ride1_assigned]
  decide

/-- Evaluation of the demo's second booking. -/
lemma demo_b2_eq : demo_b2 = (demo_state2, ["Ride Fare: $100, Driver: Bob"]) := by
  simp only [demo_b2, demo_b1_eq, SwiftRideSystem.book_ride, demo_state1,
    List.get?_cons_zero, List.get?_cons_succ,
    RideBookingService.book_ride, demo_create_luxury, demo_ride2_eq,
    demo_state2, demo_ride1_assigned, demo_ride2_assigned]
  decide

/-- Evaluation of the demo's third booking: no driver is available, the
state is unchanged and the fixed line is printed. -/
lemma demo_b3_eq : demo_b3 = (demo_state2, ["No drivers available."]) := by
  simp only [demo_b3, demo_b2_eq, SwiftRideSystem.book_ride, demo_state2,
    List.get?_cons_zero, List.get?_cons_succ,
    RideBookingService.book_ride, demo_ride1_assigned, demo_ride2_assigned]
  decide

/-- A concrete ride value used to instantiate universally quantified
theorems at witnesses. -/
def sample_ride : Ride :=
  { customer_name := "Test", pickup_location := "A", dropoff_location := "B"
    distance := 2, ride_type := RideTypeKind.economy, fare := 10
    driver := none, is_confirmed := false }

/-- Soundness of the availability scan: a returned pair is the driver stored
at the returned index, it is available, and every earlier driver is not. -/
lemma get_available_driver_some (ds : List Driver) (i : Nat) (d : Driver)
    (h : DriverManager.get_available_driver ds = some (i, d)) :
    ds.get? i = some d ∧ d.is_available = true ∧
      ∀ j dj, j < i → ds.get? j = some dj → dj.is_available = false := by
  induction ds generalizing i with
  | nil => simp [DriverManager.get_available_driver] at h
  | cons hd tl ih =>
    by_cases hav : hd.is_available
    · simp only [DriverManager.get_available_driver, hav, if_pos, Option.some.injEq,
        Prod.mk.injEq] at h
      obtain ⟨rfl, rfl⟩ := h
      exact ⟨rfl, hav, fun j dj hj => absurd hj (Nat.not_lt_zero j)⟩
    · cases htl : DriverManager.get_available_driver tl with
      | none =>
        simp [DriverManager.get_available_driver, hav, htl] at h
      | some p =>
        obtain ⟨i2, d2⟩ := p
        simp only [DriverManager.get_available_driver, hav, if_neg, Bool.false_eq_true,
          htl, Option.some.injEq, Prod.mk.injEq] at h
        obtain ⟨rfl, rfl⟩ := h
        obtain ⟨h1, h2, h3⟩ := ih i2 htl
        refine ⟨by simpa using h1, h2, ?_⟩
        intro j dj hj hget
        cases j with
        | zero =>
          simp only [List.get?_cons_zero, Option.some.injEq] at hget
          subst hget
          simpa using hav
        | succ k =>
          have hk : k < i2 := Nat.lt_of_succ_lt_succ hj
          exact h3 k dj hk (by simpa using hget)

/-- The availability scan returns none exactly when no driver is available. -/
lemma get_available_driver_none (ds : List Driver) :
    DriverManager.get_available_driver ds = none ↔
      ∀ d ∈ ds, d.is_available = false := by
  induction ds with
  | nil => simp [DriverManager.get_available_driver]
  | cons hd tl ih =>
    constructor
    · intro h d hmem
      by_cases hav : hd.is_available = true
      · exact absurd h (by simp [DriverManager.get_available_driver, hav])
      · have hav' : hd.is_available = false := by simpa using hav
        rcases List.mem_cons.mp hmem with rfl | hmem2
        · exact hav'
        · have htl : DriverManager.get_available_driver tl = none := by
            cases htl2 : DriverManager.get_available_driver tl with
            | none => rfl
            | some p =>
              obtain ⟨i2, d2⟩ := p
              exact absurd h
                (by simp [DriverManager.get_available_driver, hav', htl2])
          exact (ih.1 htl) d hmem2
    · intro hall
      have hav' : hd.is_available = false := hall hd (List.mem_cons_self hd tl)
      have htl : DriverManager.get_available_driver tl = none :=
        ih.2 fun d hdm => hall d (List.mem_cons_of_mem _ hdm)
      simp [DriverManager.get_available_driver, hav', htl]

/-- C6: DriverManager.get_available_driver scans the drivers in registration
order and returns the first driver whose status is Available (every earlier
driver is unavailable); it returns none exactly when no registered driver
is Available. -/
theorem get_available_driver_spec (drivers : List Driver) :
    (DriverManager.get_available_driver drivers = none ↔
      ∀ d ∈ drivers, d.is_available = false) ∧
    (∀ i d, DriverManager.get_available_driver drivers = some (i, d) →
      drivers.get? i = some d ∧ d.is_available = true ∧
        ∀ j dj, j < i → drivers.get? j = some dj → dj.is_available = false) :=
  ⟨get_available_driver_none drivers,
   fun i d h => get_available_driver_some drivers i d h⟩

/-- Witness for C6: on the registry [occupied Olga, available Pia] the scan
skips Olga and returns Pia at index 1. -/
theorem get_available_driver_spec_witness :
    DriverManager.get_available_driver
        [{ name := "Olga", status := .OCCUPIED, current_ride := none }, Driver.make "Pia"]
      = some (1, Driver.make "Pia") ∧
    ([{ name := "Olga", status := .OCCUPIED, current_ride := none },
        Driver.make "Pia"] : List Driver).get? 1 = some (Driver.make "Pia") ∧
    (Driver.make "Pia").is_available = true :=
  ⟨by decide,
   ((get_available_driver_spec
        [{ name := "Olga", status := .OCCUPIED, current_ride := none },
         Driver.make "Pia"]).2 1 (Driver.make "Pia") (by decide)).1,
   ((get_available_driver_spec
        [{ name := "Olga", status := .OCCUPIED, current_ride := none },
         Driver.make "Pia"]).2 1 (Driver.make "Pia") (by decide)).2.1⟩

/-- C2: for every distance d ≥ 0 the Economy fare is exactly 5*d, the Luxury
fare 10*d and the Pool fare 3*d. -/
theorem calculate_fare_exact (d : ℚ) (_h : 0 ≤ d) :
    RideTypeKind.calculate_fare .economy d = 5 * d ∧
    RideTypeKind.calculate_fare .luxury d = 10 * d ∧
    RideTypeKind.calculate_fare .pool d = 3 * d :=
  ⟨mul_comm d 5, mul_comm d 10, mul_comm d 3⟩

/-- Witness for C2 at distance 2. -/
theorem calculate_fare_exact_witness :
    (0:ℚ) ≤ 2 ∧
    (RideTypeKind.calculate_fare .economy 2 = 5 * 2 ∧
     RideTypeKind.calculate_fare .luxury 2 = 10 * 2 ∧
     RideTypeKind.calculate_fare .pool 2 = 3 * 2) :=
  ⟨by norm_num, calculate_fare_exact 2 (by norm_num)⟩

/-- C3: category resolution is case-insensitive (any string lowercasing to
economy / luxury / pool resolves to that policy) and any other string fails
with the error message carrying the original, unmodified-case input. -/
theorem create_ride_type_spec :
    (∀ s : String, str_lower s = "economy" →
        RideTypeFactory.create_ride_type s = Except.ok RideTypeKind.economy) ∧
    (∀ s : String, str_lower s = "luxury" →
        RideTypeFactory.create_ride_type s = Except.ok RideTypeKind.luxury) ∧
    (∀ s : String, str_lower s = "pool" →
        RideTypeFactory.create_ride_type s = Except.ok RideTypeKind.pool) ∧
    (∀ s : String, str_lower s ≠ "economy" → str_lower s ≠ "luxury" →
        str_lower s ≠ "pool" →
        RideTypeFactory.create_ride_type s
          = Except.error ("Invalid ride type: " ++ s)) := by
  refine ⟨fun s h => ?_, fun s h => ?_, fun s h => ?_, fun s h1 h2 h3 => ?_⟩ <;>
    simp [RideTypeFactory.create_ride_type, *]

/-- Witness for C3: "ECONOMY" resolves to the Economy policy and "taxi"
fails with the message carrying "taxi". -/
theorem create_ride_type_spec_witness :
    str_lower "ECONOMY" = "economy" ∧
    RideTypeFactory.create_ride_type "ECONOMY" = Except.ok RideTypeKind.economy ∧
    str_lower "taxi" ≠ "economy" ∧
    RideTypeFactory.create_ride_type "taxi"
      = Except.error ("Invalid ride type: " ++ "taxi") :=
  ⟨by decide,
   create_ride_type_spec.1 "ECONOMY" (by decide),
   by decide,
   create_ride_type_spec.2.2.2 "taxi" (by decide) (by decide) (by decide)⟩

/-- C8: assign_ride on an Occupied driver fails with the NotAvailable error
and leaves the driver unchanged (the error payload is the untouched driver);
on an Available driver it sets status OCCUPIED and stores the ride. -/
theorem driver_assign_ride_spec (d : Driver) (r : Ride) :
    (d.status = .OCCUPIED →
      d.assign_ride r
        = Except.error ("Driver " ++ d.name ++ " is not available", d)) ∧
    (d.status = .AVAILABLE →
      d.assign_ride r
        = Except.ok { d with status := .OCCUPIED, current_ride := some r }) := by
  constructor <;> intro h <;> simp [Driver.assign_ride, Driver.is_available, h]

/-- Witness for C8: a concrete Occupied driver rejects the assignment
unchanged; a concrete Available driver accepts it. -/
theorem driver_assign_ride_spec_witness :
    ({ name := "Omar", status := .OCCUPIED, current_ride := none } : Driver).status
        = .OCCUPIED ∧
    ({ name := "Omar", status := .OCCUPIED, current_ride := none } : Driver).assign_ride
        sample_ride
      = Except.error ("Driver " ++ "Omar" ++ " is not available",
          { name := "Omar", status := .OCCUPIED, current_ride := none }) ∧
    (Driver.make "Ana").status = .AVAILABLE ∧
    (Driver.make "Ana").assign_ride sample_ride
      = Except.ok { Driver.make "Ana" with
                    status := .OCCUPIED
                    current_ride := some sample_ride } :=
  ⟨by decide,
   (driver_assign_ride_spec
      { name := "Omar", status := .OCCUPIED, current_ride := none } sample_ride).1 (by decide),
   by decide,
   (driver_assign_ride_spec (Driver.make "Ana") sample_ride).2 (by decide)⟩

/-- String concatenation is associative (via the underlying character lists). -/
lemma string_append_assoc (a b c : String) : a ++ b ++ c = a ++ (b ++ c) := by
  apply String.ext
  simp [String.data_append, List.append_assoc]

/-- C1: with a valid category and an available driver, book_ride appends
exactly one ride to the customer's history, that ride is confirmed, the
first previously-available driver (index i, everything before it being
unavailable) becomes Occupied, the ride is returned and nothing is
printed. -/
theorem book_ride_success (drivers : List Driver) (customer : Customer)
    (p q cat : String) (dist : ℚ) (rt : RideTypeKind) (i : Nat) (d : Driver)
    (hv : RideTypeFactory.create_ride_type cat = Except.ok rt)
    (hd : DriverManager.get_available_driver drivers = some (i, d)) :
    (RideBookingService.book_ride drivers customer p q dist cat).ride
        = some { Ride.make customer p q dist rt with
                 driver := some i, is_confirmed := true } ∧
    (RideBookingService.book_ride drivers customer p q dist cat).customer.ride_history
        = customer.ride_history
            ++ [{ Ride.make customer p q dist rt with
                  driver := some i, is_confirmed := true }] ∧
    (RideBookingService.book_ride drivers customer p q dist cat).drivers
        = drivers.set i { d with
            status := .OCCUPIED
            current_ride := some { Ride.make customer p q dist rt with
                                   driver := some i } } ∧
    d.is_available = true ∧
    (∀ j dj, j < i → drivers.get? j = some dj → dj.is_available = false) ∧
    (RideBookingService.book_ride drivers customer p q dist cat).output = [] := by
  obtain ⟨hget, havail, hmin⟩ := get_available_driver_some drivers i d hd
  have hassign : (Ride.make customer p q dist rt).assign_driver i d
      = Except.ok ({ Ride.make customer p q dist rt with
                     driver := some i, is_confirmed := true },
                   { d with
                     status := .OCCUPIED
                     current_ride := some { Ride.make customer p q dist rt with
                                            driver := some i } }) := by
    simp [Ride.assign_driver, Driver.assign_ride, havail]
  refine ⟨?_, ?_, ?_, havail, hmin, ?_⟩ <;>
    simp [RideBookingService.book_ride, hv, hd, hassign]

/-- Witness for C1: booking "economy" over distance 2 with one available
driver Ana appends the confirmed ride and returns it. -/
theorem book_ride_success_witness :
    RideTypeFactory.create_ride_type "economy" = Except.ok RideTypeKind.economy ∧
    DriverManager.get_available_driver [Driver.make "Ana"]
      = some (0, Driver.make "Ana") ∧
    (RideBookingService.book_ride [Driver.make "Ana"] (Customer.make "Cai")
        "A" "B" 2 "economy").ride
      = some { Ride.make (Customer.make "Cai") "A" "B" 2 RideTypeKind.economy with
               driver := some 0, is_confirmed := true } ∧
    (RideBookingService.book_ride [Driver.make "Ana"] (Customer.make "Cai")
        "A" "B" 2 "economy").customer.ride_history
      = (Customer.make "Cai").ride_history
          ++ [{ Ride.make (Customer.make "Cai") "A" "B" 2 RideTypeKind.economy with
                driver := some 0, is_confirmed := true }] :=
  ⟨by rfl, by decide,
   (book_ride_success [Driver.make "Ana"] (Customer.make "Cai") "A" "B"
      "economy" 2 RideTypeKind.economy 0 (Driver.make "Ana") (by rfl) (by decide)).1,
   (book_ride_success [Driver.make "Ana"] (Customer.make "Cai") "A" "B"
      "economy" 2 RideTypeKind.economy 0 (Driver.make "Ana") (by rfl) (by decide)).2.1⟩

/-- C5: with a valid category but no available driver, book_ride returns
none, leaves the customer's history and the driver list unchanged, prints
nothing, and the constructed ride is neither stored nor returned. -/
theorem book_ride_no_driver (drivers : List Driver) (customer : Customer)
    (p q cat : String) (dist : ℚ) (rt : RideTypeKind)
    (hv : RideTypeFactory.create_ride_type cat = Except.ok rt)
    (hn : DriverManager.get_available_driver drivers = none) :
    (RideBookingService.book_ride drivers customer p q dist cat).ride = none ∧
    (RideBookingService.book_ride drivers customer p q dist cat).customer
        = customer ∧
    (RideBookingService.book_ride drivers customer p q dist cat).drivers
        = drivers ∧
    (RideBookingService.book_ride drivers customer p q dist cat).output = [] := by
  refine ⟨?_, ?_, ?_, ?_⟩ <;> simp [RideBookingService.book_ride, hv, hn]

/-- Witness for C5: booking "pool" against a registry with a single
occupied driver changes nothing and returns none. -/
theorem book_ride_no_driver_witness :
    RideTypeFactory.create_ride_type "pool" = Except.ok RideTypeKind.pool ∧
    DriverManager.get_available_driver
        [{ name := "Omar", status := .OCCUPIED, current_ride := none }] = none ∧
    (RideBookingService.book_ride
        [{ name := "Omar", status := .OCCUPIED, current_ride := none }]
        (Customer.make "Cai") "A" "B" 2 "pool").ride = none ∧
    (RideBookingService.book_ride
        [{ name := "Omar", status := .OCCUPIED, current_ride := none }]
        (Customer.make "Cai") "A" "B" 2 "pool").customer = Customer.make "Cai" :=
  ⟨by rfl, by decide,
   (book_ride_no_driver
      [{ name := "Omar", status := .OCCUPIED, current_ride := none }]
      (Customer.make "Cai") "A" "B" "pool" 2 RideTypeKind.pool (by rfl) (by decide)).1,
   (book_ride_no_driver
      [{ name := "Omar", status := .OCCUPIED, current_ride := none }]
      (Customer.make "Cai") "A" "B" "pool" 2 RideTypeKind.pool (by rfl) (by decide)).2.1⟩

/-- C4: with an unrecognized category, book_ride prints exactly the line
"Error booking ride: Invalid ride type: <original input>", returns none,
leaves the customer and every driver unchanged, and its returned value is
the same absent value the no-driver case returns. -/
theorem book_ride_invalid_category (drivers : List Driver) (customer : Customer)
    (p q cat : String) (dist : ℚ)
    (h1 : str_lower cat ≠ "economy") (h2 : str_lower cat ≠ "luxury")
    (h3 : str_lower cat ≠ "pool") :
    (RideBookingService.book_ride drivers customer p q dist cat).ride = none ∧
    (RideBookingService.book_ride drivers customer p q dist cat).output
        = ["Error booking ride: Invalid ride type: " ++ cat] ∧
    (RideBookingService.book_ride drivers customer p q dist cat).customer
        = customer ∧
    (RideBookingService.book_ride drivers customer p q dist cat).drivers
        = drivers ∧
    (∀ (drivers2 : List Driver) (customer2 : Customer) (p2 q2 cat2 : String)
        (dist2 : ℚ) (rt2 : RideTypeKind),
      RideTypeFactory.create_ride_type cat2 = Except.ok rt2 →
      DriverManager.get_available_driver drivers2 = none →
      (RideBookingService.book_ride drivers2 customer2 p2 q2 dist2 cat2).ride
        = (RideBookingService.book_ride drivers customer p q dist cat).ride) := by
  have herr : RideTypeFactory.create_ride_type cat
      = Except.error ("Invalid ride type: " ++ cat) := by
    simp [RideTypeFactory.create_ride_type, h1, h2, h3]
  have hline : ("Error booking ride: " ++ ("Invalid ride type: " ++ cat) : String)
      = "Error booking ride: Invalid ride type: " ++ cat := by
    rw [← string_append_assoc]
    rfl
  refine ⟨?_, ?_, ?_, ?_, ?_⟩
  · simp [RideBookingService.book_ride, herr]
  · simp [RideBookingService.book_ride, herr, hline]
  · simp [RideBookingService.book_ride, herr]
  · simp [RideBookingService.book_ride, herr]
  · intro drivers2 customer2 p2 q2 cat2 dist2 rt2 hv2 hn2
    simp [RideBookingService.book_ride, herr, hv2, hn2]

/-- Witness for C4: booking the unrecognized category "taxi" prints the
diagnostic with the original string and returns none. -/
theorem book_ride_invalid_category_witness :
    str_lower "taxi" ≠ "economy" ∧
    (RideBookingService.book_ride [Driver.make "Ana"] (Customer.make "Cai")
        "A" "B" 2 "taxi").ride = none ∧
    (RideBookingService.book_ride [Driver.make "Ana"] (Customer.make "Cai")
        "A" "B" 2 "taxi").output
      = ["Error booking ride: Invalid ride type: " ++ "taxi"] ∧
    (RideBookingService.book_ride [Driver.make "Ana"] (Customer.make "Cai")
        "A" "B" 2 "taxi").customer = Customer.make "Cai" :=
  ⟨by decide,
   (book_ride_invalid_category [Driver.make "Ana"] (Customer.make "Cai")
      "A" "B" "taxi" 2 (by decide) (by decide) (by decide)).1,
   (book_ride_invalid_category [Driver.make "Ana"] (Customer.make "Cai")
      "A" "B" "taxi" 2 (by decide) (by decide) (by decide)).2.1,
   (book_ride_invalid_category [Driver.make "Ana"] (Customer.make "Cai")
      "A" "B" "taxi" 2 (by decide) (by decide) (by decide)).2.2.1⟩

/-- Counterexample for C7: assign_driver invoked with an Occupied driver
fails after having already set the ride's driver field, leaving a ride
whose driver is set while is_confirmed is still false — the claimed
invariant "is_confirmed is true iff driver is set" does not survive
assign_driver with a driver of either status. -/
theorem ride_confirmed_invariant_cx :
    Ride.assign_driver sample_ride 0
        { name := "Omar", status := .OCCUPIED, current_ride := none }
      = Except.error ("Driver " ++ "Omar" ++ " is not available",
          { sample_ride with driver := some 0 },
          { name := "Omar", status := .OCCUPIED, current_ride := none }) ∧
    ¬(({ sample_ride with driver := some 0 }).is_confirmed = true ↔
        ({ sample_ride with driver := some 0 }).driver ≠ none) :=
  ⟨by rfl, by decide⟩

/-- C7 (amended): the invariant "is_confirmed is true iff driver is set"
holds after construction and is preserved by assign_driver invoked with an
Available driver — the only way the program ever invokes it; invoked with
an Occupied driver the call instead fails and breaks the invariant (see the
counterexample). -/
theorem ride_confirmed_invariant (c : Customer) (p q : String) (dist : ℚ)
    (t : RideTypeKind) (r : Ride) (i : Nat) (d : Driver)
    (hav : d.is_available = true) :
    ((Ride.make c p q dist t).is_confirmed = true ↔
        (Ride.make c p q dist t).driver ≠ none) ∧
    Ride.assign_driver r i d
      = Except.ok ({ r with driver := some i, is_confirmed := true },
          { d with
            status := .OCCUPIED
            current_ride := some { r with driver := some i } }) ∧
    (({ r with driver := some i, is_confirmed := true }).is_confirmed = true ↔
        ({ r with driver := some i, is_confirmed := true }).driver ≠ none) := by
  refine ⟨by simp [Ride.make], ?_, by simp⟩
  simp [Ride.assign_driver, Driver.assign_ride, hav]

/-- Witness for the amended C7: a fresh ride satisfies the invariant and a
successful assignment to the available driver Ana preserves it. -/
theorem ride_confirmed_invariant_witness :
    (Driver.make "Ana").is_available = true ∧
    ((Ride.make (Customer.make "Cai") "A" "B" 2 RideTypeKind.economy).is_confirmed = true ↔
        (Ride.make (Customer.make "Cai") "A" "B" 2 RideTypeKind.economy).driver ≠ none) ∧
    Ride.assign_driver sample_ride 0 (Driver.make "Ana")
      = Except.ok ({ sample_ride with driver := some 0, is_confirmed := true },
          { Driver.make "Ana" with
            status := .OCCUPIED
            current_ride := some { sample_ride with driver := some 0 } }) :=
  ⟨by decide,
   (ride_confirmed_invariant (Customer.make "Cai") "A" "B" 2 RideTypeKind.economy
      sample_ride 0 (Driver.make "Ana") (by decide)).1,
   (ride_confirmed_invariant (Customer.make "Cai") "A" "B" 2 RideTypeKind.economy
      sample_ride 0 (Driver.make "Ana") (by decide)).2.1⟩

/-- C9: the bundled demo produces the fare-75 ride driven by Alice, the
fare-100 ride driven by Bob, and the fixed "No drivers available." output
for the third booking, whose customer's history stays empty. -/
theorem demo_scenario :
    demo_b1.2 = ["Ride Fare: $75, Driver: Alice"] ∧
    demo_b2.2 = ["Ride Fare: $100, Driver: Bob"] ∧
    demo_b3.2 = ["No drivers available."] ∧
    demo_b3.1.customers.map (fun c => c.ride_history.map Ride.fare)
      = [[75], [100], []] ∧
    demo_b3.1.customers.map (fun c => c.ride_history.map Ride.driver)
      = [[some 0], [some 1], []] ∧
    demo_b3.1.drivers.map Driver.name = ["Alice", "Bob"] := by
  refine ⟨?_, ?_, ?_, ?_, ?_, ?_⟩ <;>
    simp [demo_b1_eq, demo_b2_eq, demo_b3_eq, demo_state1, demo_state2,
      demo_ride1_assigned, demo_ride2_assigned, Customer.make, Driver.make]

/-- C10: completing the ride of the driver stored at index i resets only
that driver (status Available, current_ride cleared, same name); the
customer list — where every booked Ride value lives — is untouched, so
every ride keeps its driver reference and its is_confirmed flag. -/
theorem complete_ride_frame (st : SystemState) (i : Nat) (d : Driver) (r0 : Ride)
    (hd : st.drivers.get? i = some d) (_hr : d.current_ride = some r0) :
    (st.complete_driver i).customers = st.customers ∧
    (st.complete_driver i).drivers
        = st.drivers.set i { d with status := .AVAILABLE, current_ride := none } ∧
    (∀ j, j ≠ i → (st.complete_driver i).drivers.get? j = st.drivers.get? j) ∧
    (st.complete_driver i).drivers.get? i
        = some { d with status := .AVAILABLE, current_ride := none } := by
  have hlen : i < st.drivers.length := by
    by_contra hge
    rw [List.get?_eq_none.mpr (Nat.le_of_not_lt hge)] at hd
    exact Option.noConfusion hd
  have hd2 : st.drivers[i]? = some d := by
    rw [← List.get?_eq_getElem?]
    exact hd
  have hstep : st.complete_driver i
      = { st with drivers := st.drivers.set i d.complete_ride } := by
    simp [SystemState.complete_driver, hd, hd2]
  refine ⟨by rw [hstep], by rw [hstep]; rfl, ?_, ?_⟩
  · intro j hj
    rw [hstep]
    exact List.get?_set_ne _ _ (fun h => hj h.symm)
  · rw [hstep]
    exact List.get?_set_eq_of_lt _ hlen

/-- Witness for C10: completing occupied driver Ana (holding sample_ride)
resets her and leaves the customer list unchanged. -/
theorem complete_ride_frame_witness :
    (({ drivers := [{ name := "Ana", status := .OCCUPIED,
                      current_ride := some sample_ride }]
        customers := [Customer.make "Cai"] } : SystemState).drivers.get? 0
      = some { name := "Ana", status := .OCCUPIED,
               current_ride := some sample_ride }) ∧
    (({ drivers := [{ name := "Ana", status := .OCCUPIED,
                      current_ride := some sample_ride }]
        customers := [Customer.make "Cai"] } : SystemState).complete_driver 0).customers
      = [Customer.make "Cai"] ∧
    (({ drivers := [{ name := "Ana", status := .OCCUPIED,
                      current_ride := some sample_ride }]
        customers := [Customer.make "Cai"] } : SystemState).complete_driver 0).drivers.get? 0
      = some { name := "Ana", status := .AVAILABLE, current_ride := none } :=
  ⟨by decide,
   (complete_ride_frame
      { drivers := [{ name := "Ana", status := .OCCUPIED,
                      current_ride := some sample_ride }]
        customers := [Customer.make "Cai"] } 0
      { name := "Ana", status := .OCCUPIED, current_ride := some sample_ride }
      sample_ride (by decide) (by decide)).1,
   (complete_ride_frame
      { drivers := [{ name := "Ana", status := .OCCUPIED,
                      current_ride := some sample_ride }]
        customers := [Customer.make "Cai"] } 0
      { name := "Ana", status := .OCCUPIED, current_ride := some sample_ride }
      sample_ride (by decide) (by decide)).2.2.2⟩
